import Mathlib

/-!
Verification of the mita-viz morph/regression engine.

Numbers are modelled as exact rationals (`ℚ`), matching the source's
arithmetic formulas; `null`-able fields become `Option ℚ`.  The one place
where the source computes a transcendental value (`Math.exp` in the effect
label formatting) is modelled over `ℝ` with `Real.exp`.
-/

namespace MitaViz

/-! ## Data model (src/components/viz/types.ts) -/

inductive Outcome
  | consumption
  | stunting
  | roads
deriving DecidableEq, Repr

/-- A merged district record (`MergedDistrictData` in types.ts): join of a
polygon record and an outcome record.  The polygon itself is irrelevant to
the claims; only the derived centroid and the statistical fields are kept. -/
structure MergedDistrictData where
  ubigeo : ℕ
  mita : ℤ
  centroidLon : ℚ
  centroidLat : ℚ
  distance : Option ℚ
  isInside : Bool
  consumption : Option ℚ
  stunting : Option ℚ
  roads : Option ℚ
deriving DecidableEq, Repr

/-- `ScatterDataPoint` from types.ts: a merged record extended with the
projected plot coordinates and the per-outcome Y values. -/
structure ScatterDataPoint extends MergedDistrictData where
  scatterX : ℚ
  scatterY : ℚ
  stuntingY : Option ℚ
  consumptionY : Option ℚ
  roadsY : Option ℚ
deriving DecidableEq, Repr

/-- `d[currentOutcome]` : dynamic field access on a merged record. -/
def MergedDistrictData.outcomeField (d : MergedDistrictData) : Outcome → Option ℚ
  | .consumption => d.consumption
  | .stunting => d.stunting
  | .roads => d.roads

/-! ## ScatterProjector (src/components/viz/dataUtils.ts) -/

/-- The filter predicate of `filterScatterData`:
`d.distance !== null && value !== null && value > 0`. -/
def includedInScatter (d : MergedDistrictData) (currentOutcome : Outcome) : Bool :=
  match d.distance, d.outcomeField currentOutcome with
  | some _, some v => decide (0 < v)
  | _, _ => false

/-- `d.isInside ? Math.abs(d.distance) : -Math.abs(d.distance)`.  The
`as number` cast is modelled by `Option.getD 0` (only reached when the
distance is present). -/
def flippedDistance (d : MergedDistrictData) : ℚ :=
  if d.isInside then |d.distance.getD 0| else -|d.distance.getD 0|

/-- The map step of `filterScatterData`. -/
def projectScatterPoint (d : MergedDistrictData) (currentOutcome : Outcome) : ScatterDataPoint :=
  let rawValue := (d.outcomeField currentOutcome).getD 0
  let value := if currentOutcome = .stunting then rawValue * 100 else rawValue
  { toMergedDistrictData := d
    scatterX := flippedDistance d
    scatterY := value
    stuntingY := d.stunting.map (fun v => v * 100)
    consumptionY := d.consumption
    roadsY := d.roads }

/-- `filterScatterData` from dataUtils.ts. -/
def filterScatterData (mergedData : List MergedDistrictData) (currentOutcome : Outcome) :
    List ScatterDataPoint :=
  (mergedData.filter (fun d => includedInScatter d currentOutcome)).map
    (fun d => projectScatterPoint d currentOutcome)

/-- `o !== null && o > 0` on a nullable value. -/
def positiveOpt : Option ℚ → Bool
  | some v => decide (0 < v)
  | none => false

/-- The filter predicate of `getAllScatterData`. -/
def includedInAll (d : MergedDistrictData) : Bool :=
  d.distance.isSome &&
    (positiveOpt d.stunting || positiveOpt d.consumption || positiveOpt d.roads)

/-- The map step of `getAllScatterData` (scatterY is the `0` placeholder). -/
def projectAllPoint (d : MergedDistrictData) : ScatterDataPoint :=
  { toMergedDistrictData := d
    scatterX := flippedDistance d
    scatterY := 0
    stuntingY := if positiveOpt d.stunting then d.stunting.map (fun v => v * 100) else none
    consumptionY := if positiveOpt d.consumption then d.consumption else none
    roadsY := if positiveOpt d.roads then d.roads else none }

/-- `getAllScatterData` from dataUtils.ts. -/
def getAllScatterData (mergedData : List MergedDistrictData) : List ScatterDataPoint :=
  (mergedData.filter includedInAll).map projectAllPoint

/-! ## RegressionFitter (src/components/viz/fittedLineUtils.ts) -/

/-- The `{ scatterX, scatterY }` structural interface taken by the OLS
helpers. -/
structure Point where
  scatterX : ℚ
  scatterY : ℚ
deriving DecidableEq, Repr

def sumX (points : List Point) : ℚ := points.foldl (fun s p => s + p.scatterX) 0
def sumY (points : List Point) : ℚ := points.foldl (fun s p => s + p.scatterY) 0
def sumXY (points : List Point) : ℚ := points.foldl (fun s p => s + p.scatterX * p.scatterY) 0
def sumX2 (points : List Point) : ℚ := points.foldl (fun s p => s + p.scatterX * p.scatterX) 0
def sumX3 (points : List Point) : ℚ := points.foldl (fun s p => s + p.scatterX ^ 3) 0
def sumX4 (points : List Point) : ℚ := points.foldl (fun s p => s + p.scatterX ^ 4) 0
def sumX2Y (points : List Point) : ℚ := points.foldl (fun s p => s + p.scatterX ^ 2 * p.scatterY) 0

structure LinearFit where
  intercept : ℚ
  slope : ℚ
deriving DecidableEq, Repr

structure QuadFit where
  intercept : ℚ
  slope : ℚ
  quadratic : ℚ
deriving DecidableEq, Repr

/-- The `1e-10` degeneracy threshold. -/
def fitEps : ℚ := 1 / 10 ^ 10

/-- `n * sumX2 - sumX * sumX`, the linear normal-equations denominator. -/
def linDenom (points : List Point) : ℚ :=
  (points.length : ℚ) * sumX2 points - sumX points * sumX points

/-- `calcLinearOLS` from fittedLineUtils.ts (identical copy in
MapToScatter.tsx). -/
def calcLinearOLS (points : List Point) : LinearFit :=
  let n : ℚ := points.length
  if points.length < 2 then { intercept := 0, slope := 0 }
  else
    let denom := linDenom points
    if |denom| < fitEps then { intercept := sumY points / n, slope := 0 }
    else
      let slope := (n * sumXY points - sumX points * sumY points) / denom
      { intercept := (sumY points - slope * sumX points) / n, slope := slope }

/-- The 3×3 normal-equations determinant of `calcQuadraticOLS`. -/
def quadDet (points : List Point) : ℚ :=
  let n : ℚ := points.length
  n * (sumX2 points * sumX4 points - sumX3 points * sumX3 points)
    - sumX points * (sumX points * sumX4 points - sumX3 points * sumX2 points)
    + sumX2 points * (sumX points * sumX3 points - sumX2 points * sumX2 points)

/-- `calcQuadraticOLS` from fittedLineUtils.ts. -/
def calcQuadraticOLS (points : List Point) : QuadFit :=
  if points.length < 3 then
    let lin := calcLinearOLS points
    { intercept := lin.intercept, slope := lin.slope, quadratic := 0 }
  else
    let det := quadDet points
    if |det| < fitEps then
      let lin := calcLinearOLS points
      { intercept := lin.intercept, slope := lin.slope, quadratic := 0 }
    else
      let n : ℚ := points.length
      { intercept :=
          (sumY points * (sumX2 points * sumX4 points - sumX3 points * sumX3 points)
            - sumX points * (sumXY points * sumX4 points - sumX2Y points * sumX3 points)
            + sumX2 points * (sumXY points * sumX3 points - sumX2Y points * sumX2 points)) / det
        slope :=
          (n * (sumXY points * sumX4 points - sumX2Y points * sumX3 points)
            - sumY points * (sumX points * sumX4 points - sumX3 points * sumX2 points)
            + sumX2 points * (sumX points * sumX2Y points - sumXY points * sumX2 points)) / det
        quadratic :=
          (n * (sumX2 points * sumX2Y points - sumX3 points * sumXY points)
            - sumX points * (sumX points * sumX2Y points - sumXY points * sumX2 points)
            + sumY points * (sumX points * sumX3 points - sumX2 points * sumX2 points)) / det }

/-! ## calculateFittedLines (src/components/viz/fittedLineUtils.ts) -/

/-- An `{ x, y }` sample of a displayed fitted line. -/
structure LinePoint where
  x : ℚ
  y : ℚ
deriving DecidableEq, Repr

structure FittedLines where
  insideLineLinear : List LinePoint
  outsideLineLinear : List LinePoint
  insideLinePoly : List LinePoint
  outsideLinePoly : List LinePoint
  naiveDiscontinuity : ℚ
  paperDiscontinuity : ℚ
deriving DecidableEq, Repr

/-- Dell (2010) coefficients from constants.ts. -/
def PAPER_COEFFICIENTS : Outcome → ℚ
  | .consumption => -(25 / 100)
  | .stunting => 6 / 100
  | .roads => -36

/-- `currentOutcome === 'stunting' ? PAPER_COEFFICIENTS[o] * 100 :
PAPER_COEFFICIENTS[o]` as computed inside `calculateFittedLines`. -/
def paperDiscontinuityOf (currentOutcome : Outcome) : ℚ :=
  if currentOutcome = .stunting then PAPER_COEFFICIENTS currentOutcome * 100
  else PAPER_COEFFICIENTS currentOutcome

/-- `scatterData.reduce((s, d) => s + d.scatterY, 0) / scatterData.length`. -/
def allMean (scatterData : List ScatterDataPoint) : ℚ :=
  (scatterData.foldl (fun s d => s + d.scatterY) 0) / (scatterData.length : ℚ)

def toPoint (d : ScatterDataPoint) : Point := { scatterX := d.scatterX, scatterY := d.scatterY }

/-- `Math.max(...insideData.map(d => d.scatterX), 0)`. -/
def maxInsideOf (insideData : List ScatterDataPoint) : ℚ :=
  (insideData.map (fun d => d.scatterX)).foldr max 0

/-- `Math.min(...outsideData.map(d => d.scatterX), 0)`. -/
def minOutsideOf (outsideData : List ScatterDataPoint) : ℚ :=
  (outsideData.map (fun d => d.scatterX)).foldr min 0

/-- `calculateFittedLines` from fittedLineUtils.ts.  The two integer `for`
loops (`x = 0 .. ceil(maxInside)` and `x = floor(minOutside) .. 0`) are
rendered as maps over `List.range`. -/
def calculateFittedLines (scatterData : List ScatterDataPoint) (currentOutcome : Outcome) :
    FittedLines :=
  let insideData := scatterData.filter (fun d => d.isInside)
  let outsideData := scatterData.filter (fun d => !d.isInside)
  let insideLinear := calcLinearOLS (insideData.map toPoint)
  let outsideLinear := calcLinearOLS (outsideData.map toPoint)
  let insidePoly := calcQuadraticOLS (insideData.map toPoint)
  let outsidePoly := calcQuadraticOLS (outsideData.map toPoint)
  let maxInside := maxInsideOf insideData
  let minOutside := minOutsideOf outsideData
  let paperDiscontinuity := paperDiscontinuityOf currentOutcome
  let naiveDiscontinuity := insideLinear.intercept - outsideLinear.intercept
  let mean := allMean scatterData
  let paperOutsideIntercept := mean
  let paperInsideIntercept := mean + paperDiscontinuity
  let insideCount := (⌈maxInside⌉).toNat + 1
  let outsideCount := (-⌊minOutside⌋).toNat + 1
  { insideLineLinear := (List.range insideCount).map (fun (i : ℕ) =>
      { x := (i : ℚ), y := insideLinear.intercept + insideLinear.slope * (i : ℚ) })
    insideLinePoly := (List.range insideCount).map (fun (i : ℕ) =>
      { x := (i : ℚ)
        y := paperInsideIntercept + insidePoly.slope * (i : ℚ)
          + insidePoly.quadratic * (i : ℚ) * (i : ℚ) })
    outsideLineLinear := (List.range outsideCount).map (fun (i : ℕ) =>
      let x : ℚ := ((⌊minOutside⌋ + (i : ℤ) : ℤ) : ℚ)
      { x := x, y := outsideLinear.intercept + outsideLinear.slope * x })
    outsideLinePoly := (List.range outsideCount).map (fun (i : ℕ) =>
      let x : ℚ := ((⌊minOutside⌋ + (i : ℤ) : ℤ) : ℚ)
      { x := x, y := paperOutsideIntercept + outsidePoly.slope * x
          + outsidePoly.quadratic * x * x })
    naiveDiscontinuity := naiveDiscontinuity
    paperDiscontinuity := paperDiscontinuity }

/-! ## CoordinateInterpolator (MorphRenderer.ts / MapToScatter.tsx / UnifiedViz.tsx) -/

/-- `d3.scaleLinear().domain([-50, 50]).range([0, innerWidth])`. -/
def xScalePx (innerWidth : ℚ) (value : ℚ) : ℚ :=
  (value - (-50)) / (50 - (-50)) * innerWidth

/-- The morph-dot `cx` interpolation as the source writes it
(`MapToScatter.tsx` line 317, `MorphRenderer` and `UnifiedViz.tsx` likewise):
`mapX + (scatterX - mapX) * morphT`, with the missing projection modelled by
`Option.getD 0` (`geoCoord ? geoCoord[0] : 0`).  There is no clamping. -/
def morphDotCx (geoCoordX : Option ℚ) (scatterXpx morphT : ℚ) : ℚ :=
  let mapX := geoCoordX.getD 0
  mapX + (scatterXpx - mapX) * morphT

/-- `calculateDotCx` from RDDChart.test.tsx, described there as "the actual
positioning logic from MapToScatter (with fix)": the interpolated value
clamped to the plot bounds. -/
def calculateDotCx (mapX scatterXpx morphT innerWidth : ℚ) : ℚ :=
  max 0 (min innerWidth (mapX + (scatterXpx - mapX) * morphT))

/-! ## PhaseScheduler (UnifiedViz.tsx and the refactored UnifiedViz) -/

def MORPH_TIMING_start : ℚ := 2 / 10
def MORPH_TIMING_end : ℚ := 9 / 10

/-- `if (t < 0.3)` : the Map rendering branch. -/
def mapBranchActive (t : ℚ) : Bool := decide (t < 3 / 10)

/-- `const isAtFullScatter = t >= 1`. -/
def isAtFullScatter (t : ℚ) : Bool := decide (1 ≤ t)

/-- `Math.min((t - 0.3) / 0.5, 1)` — UnifiedViz.tsx line 593. -/
def morphT_UnifiedViz (t : ℚ) : ℚ := min ((t - 3 / 10) / (5 / 10)) 1

/-- `Math.min((t - MORPH_TIMING.start) / (MORPH_TIMING.end -
MORPH_TIMING.start), 1)` — refactored UnifiedViz main render effect. -/
def morphT_MorphTiming (t : ℚ) : ℚ :=
  min ((t - MORPH_TIMING_start) / (MORPH_TIMING_end - MORPH_TIMING_start)) 1

/-- Modelled from the spec: the renormalization `(p - 0.3) / 0.7` that the
claim asserts for the morph sub-progress (0 at p = 0.3, 1 at p = 1).  No
source function computes this; it is stated for comparison with the two
source formulas above. -/
def specMorphT (p : ℚ) : ℚ := (p - 3 / 10) / (7 / 10)

/-- `t >= 1 && prevOutcomeRef.current !== currentOutcome &&
prevOutcomeRef.current !== ''`. -/
def isOutcomeOnlyTransition (t : ℚ) (prevOutcome currentOutcome : String) : Bool :=
  decide (1 ≤ t) && (prevOutcome != currentOutcome) && (prevOutcome != "")

/-- `t >= 1 && prevScatterPhaseRef.current !== scatterPhase &&
prevScatterPhaseRef.current !== ''`. -/
def isPhaseTransition (t : ℚ) (prevScatterPhase scatterPhase : String) : Bool :=
  decide (1 ≤ t) && (prevScatterPhase != scatterPhase) && (prevScatterPhase != "")

/-- `shouldPreserveElements = isOutcomeOnlyTransition || isPhaseTransition`. -/
def shouldPreserveElements (t : ℚ) (prevOutcome currentOutcome prevScatterPhase
    scatterPhase : String) : Bool :=
  isOutcomeOnlyTransition t prevOutcome currentOutcome ||
    isPhaseTransition t prevScatterPhase scatterPhase

/-- The element classes excluded by the clear-step selector
`*:not(.morph-dot):not(.inside-line):not(.outside-line):not(.effect-line):not(.effect-label-rect):not(.effect-label-text):not(.main-group)`. -/
def persistentClasses : List String :=
  ["morph-dot", "inside-line", "outside-line", "effect-line",
   "effect-label-rect", "effect-label-text", "main-group"]

/-- Whether the clear step of the render effect removes an element of class
`cls`: under `shouldPreserveElements || isAtFullScatter` the selector keeps
the persistent classes, otherwise `svg.selectAll('*').remove()` removes
everything. -/
def removedByClearStep (preserve atFullScatter : Bool) (cls : String) : Bool :=
  if preserve || atFullScatter then !(persistentClasses.contains cls) else true

/-! ## Effect formatting (`formatEffect` in fittedLineUtils.ts) -/

/-- Decimal rendering of an already-rounded scaled integer `n` with `f`
digits after the point: the pure string part of JavaScript's
`Number.prototype.toFixed`.  The fractional digits of `n.natAbs % 10^f` are
left-padded with zeros by printing `10^f + r` and dropping the leading 1. -/
def fixedOfInt (f : ℕ) (n : ℤ) : String :=
  let sign := if n < 0 then "-" else ""
  let m := n.natAbs
  if f = 0 then sign ++ toString m
  else sign ++ toString (m / 10 ^ f) ++ "." ++ (toString (10 ^ f + m % 10 ^ f)).drop 1

/-- `x.toFixed(f)` : round `x * 10^f` to the nearest integer, ties toward
the larger candidate (the ECMAScript rule), then render. -/
noncomputable def toFixed (f : ℕ) (x : ℝ) : String :=
  fixedOfInt f ⌊x * 10 ^ f + 1 / 2⌋

/-- `formatEffect` from fittedLineUtils.ts.  `Math.exp` is `Real.exp`, which
is the one transcendental computation in the engine. -/
noncomputable def formatEffect (discontinuity : ℝ) (currentOutcome : Outcome) : String :=
  match currentOutcome with
  | .consumption =>
      let pctChange := (Real.exp discontinuity - 1) * 100
      (if 0 < pctChange then "+" else "") ++ toFixed 0 pctChange ++ "%"
  | .stunting =>
      (if 0 < discontinuity then "+" else "") ++ toFixed 1 discontinuity ++ "pp"
  | .roads =>
      (if 0 < discontinuity then "+" else "") ++ toFixed 0 discontinuity ++ " m/km²"

/-! ## AnimationDriver (the progress animation `useEffect`)

The driver owns a `requestAnimationFrame` chain.  The environment is
modelled with an explicit multiset of outstanding frame callbacks
(`pending`); `requestAnimationFrame` appends a fresh handle,
`cancelAnimationFrame` erases one.  A `retarget` event is a run of the
effect body: it captures `startProgress = currentProgress`, cancels the
handle stored in `animationRef` and schedules a new chain.  A `frame h now`
event fires an outstanding callback: it reports the eased value through
`onFrame` (recorded in `reported` and in `currentProgress`) and, while
`t < 1`, schedules the next link of the chain. -/

structure DriverState where
  currentProgress : ℚ
  startProgress : ℚ
  targetProgress : ℚ
  startTime : ℚ
  animationRef : Option ℕ
  pending : List ℕ
  nextHandle : ℕ
  reported : List ℚ
deriving DecidableEq, Repr

inductive DriverEvent
  | retarget (target now : ℚ)
  | frame (h : ℕ) (now : ℚ)
deriving DecidableEq, Repr

/-- `t < 0.5 ? 2*t*t : 1 - Math.pow(-2*t + 2, 2) / 2`. -/
def easeInOutQuad (t : ℚ) : ℚ :=
  if t < 1 / 2 then 2 * t * t else 1 - (-2 * t + 2) ^ 2 / 2

def driverStep (duration : ℚ) (s : DriverState) : DriverEvent → DriverState
  | .retarget target now =>
      let pendingAfterCancel :=
        match s.animationRef with
        | some h => s.pending.erase h
        | none => s.pending
      { s with
        startProgress := s.currentProgress
        targetProgress := target
        startTime := now
        pending := pendingAfterCancel ++ [s.nextHandle]
        animationRef := some s.nextHandle
        nextHandle := s.nextHandle + 1 }
  | .frame h now =>
      if h ∈ s.pending then
        let t := min ((now - s.startTime) / duration) 1
        let eased := easeInOutQuad t
        let v := s.startProgress + (s.targetProgress - s.startProgress) * eased
        let pendingAfterFire := s.pending.erase h
        if t < 1 then
          { s with
            currentProgress := v
            reported := v :: s.reported
            pending := pendingAfterFire ++ [s.nextHandle]
            animationRef := some s.nextHandle
            nextHandle := s.nextHandle + 1 }
        else
          { s with
            currentProgress := v
            reported := v :: s.reported
            pending := pendingAfterFire }
      else s

/-- The state before any animation ran: progress initialised from the prop,
no outstanding callback. -/
def initDriver (p0 : ℚ) : DriverState :=
  { currentProgress := p0, startProgress := p0, targetProgress := p0, startTime := 0
    animationRef := none, pending := [], nextHandle := 0, reported := [] }

def runDriver (duration p0 : ℚ) (events : List DriverEvent) : DriverState :=
  events.foldl (driverStep duration) (initDriver p0)

/-! ## Theorems -/

/-- A concrete merged district record used to exercise the projections. -/
def sampleDistrict : MergedDistrictData :=
  { ubigeo := 10101, mita := 1, centroidLon := -71, centroidLat := -14
    distance := some (-10), isInside := true, consumption := some 5
    stunting := none, roads := none }

/-- C1: the morph-dot position interpolation does NOT clamp to the plot
bounds.  With the plot's `innerWidth = 610`, a district whose projected map
position is `x = -400` and whose boundary distance is `-80` km (scatter
pixel position `xScalePx 610 (-80) = -183`) gets, at `t = 1`, the blended
position `cx = -183`, outside `[0, innerWidth]` — whereas the repository's
own test-suite function `calculateDotCx` ("the actual positioning logic
from MapToScatter (with fix)") clamps the same input to the plot edge `0`. -/
theorem C1_morph_dot_escapes_plot_bounds :
    morphDotCx (some (-400)) (xScalePx 610 (-80)) 1 = -183 ∧
    morphDotCx (some (-400)) (xScalePx 610 (-80)) 1 < 0 ∧
    calculateDotCx (-400) (xScalePx 610 (-80)) 1 610 = 0 := by
  refine ⟨?_, ?_, ?_⟩ <;> norm_num [morphDotCx, xScalePx, calculateDotCx]

/-- C2 counterexample: on the one-point list `[(1, 5)]` the linear fit
returns intercept `0`, not the mean of the y values (`5`), contradicting
the claim's degenerate case for lists with fewer than 2 points. -/
theorem C2_single_point_intercept_not_mean :
    calcLinearOLS [⟨1, 5⟩] = { intercept := 0, slope := 0 } ∧
    sumY [⟨1, 5⟩] / (([⟨1, 5⟩] : List Point).length : ℚ) = 5 ∧
    (calcLinearOLS [⟨1, 5⟩]).intercept ≠
      sumY [⟨1, 5⟩] / (([⟨1, 5⟩] : List Point).length : ℚ) := by
  refine ⟨by decide, ?_, ?_⟩ <;> norm_num [calcLinearOLS, sumY]

/-- C2 (amended): whenever `|denom| ≥ 1e-10` the linear fit returns the
normal-equations slope `(nΣxy − ΣxΣy)/denom` and intercept
`(Σy − slope·Σx)/n`; whenever the list has fewer than 2 points it returns
slope 0 and intercept 0; and whenever the list has at least 2 points but
`|denom| < 1e-10` it returns slope 0 and intercept equal to the mean of
the y values.  It never divides by the near-zero denominator. -/
theorem C2_calcLinearOLS_formulas (points : List Point) :
    (fitEps ≤ |linDenom points| →
      (calcLinearOLS points).slope =
        ((points.length : ℚ) * sumXY points - sumX points * sumY points) / linDenom points ∧
      (calcLinearOLS points).intercept =
        (sumY points - (calcLinearOLS points).slope * sumX points) / (points.length : ℚ)) ∧
    (points.length < 2 → calcLinearOLS points = { intercept := 0, slope := 0 }) ∧
    (2 ≤ points.length → |linDenom points| < fitEps →
      calcLinearOLS points = { intercept := sumY points / (points.length : ℚ), slope := 0 }) := by
  refine ⟨?_, ?_, ?_⟩
  · intro h
    have hlen : ¬ points.length < 2 := by
      intro hlt
      have hz : linDenom points = 0 := by
        match points, hlt with
        | [], _ => simp [linDenom, sumX, sumX2]
        | [p], _ => simp [linDenom, sumX, sumX2]
      rw [hz] at h
      norm_num [fitEps] at h
    have hd : ¬ |linDenom points| < fitEps := not_lt.mpr h
    have hs : (calcLinearOLS points).slope =
        ((points.length : ℚ) * sumXY points - sumX points * sumY points) / linDenom points := by
      simp only [calcLinearOLS, if_neg hlen, if_neg hd]
    refine ⟨hs, ?_⟩
    rw [hs]
    simp only [calcLinearOLS, if_neg hlen, if_neg hd]
  · intro h
    simp only [calcLinearOLS, if_pos h]
  · intro hlen hd
    have h1 : ¬ points.length < 2 := by omega
    simp only [calcLinearOLS, if_neg h1, if_pos hd]

/-- C2 witness: the non-degenerate branch of `C2_calcLinearOLS_formulas`
instantiated on `[(0, 0), (1, 1)]` (denominator 1), and the degenerate
branches on `[(1, 5)]` and on the constant-x list `[(2, 0), (2, 4)]`. -/
theorem C2_calcLinearOLS_formulas_witness :
    (fitEps ≤ |linDenom [⟨0, 0⟩, ⟨1, 1⟩]| ∧
      (calcLinearOLS [⟨0, 0⟩, ⟨1, 1⟩]).slope =
        ((([⟨0, 0⟩, ⟨1, 1⟩] : List Point).length : ℚ) * sumXY [⟨0, 0⟩, ⟨1, 1⟩]
          - sumX [⟨0, 0⟩, ⟨1, 1⟩] * sumY [⟨0, 0⟩, ⟨1, 1⟩]) / linDenom [⟨0, 0⟩, ⟨1, 1⟩]) ∧
    (([⟨1, 5⟩] : List Point).length < 2 ∧
      calcLinearOLS [⟨1, 5⟩] = { intercept := 0, slope := 0 }) ∧
    (2 ≤ ([⟨2, 0⟩, ⟨2, 4⟩] : List Point).length ∧ |linDenom [⟨2, 0⟩, ⟨2, 4⟩]| < fitEps ∧
      calcLinearOLS [⟨2, 0⟩, ⟨2, 4⟩] =
        { intercept := sumY [⟨2, 0⟩, ⟨2, 4⟩] / (([⟨2, 0⟩, ⟨2, 4⟩] : List Point).length : ℚ),
          slope := 0 }) :=
  ⟨⟨by norm_num [fitEps, linDenom, sumX, sumX2],
    ((C2_calcLinearOLS_formulas [⟨0, 0⟩, ⟨1, 1⟩]).1
      (by norm_num [fitEps, linDenom, sumX, sumX2])).1⟩,
   ⟨by decide, (C2_calcLinearOLS_formulas [⟨1, 5⟩]).2.1 (by decide)⟩,
   ⟨by decide, by norm_num [fitEps, linDenom, sumX, sumX2],
    (C2_calcLinearOLS_formulas [⟨2, 0⟩, ⟨2, 4⟩]).2.2 (by decide)
      (by norm_num [fitEps, linDenom, sumX, sumX2])⟩⟩

/-- C3 counterexample: at progress `p = 0.65` the claimed sub-progress
`(p - 0.3)/0.7` is `0.5`, but UnifiedViz computes
`min((p - 0.3)/0.5, 1) = 0.7` and the refactored renderer computes
`min((p - 0.2)/0.7, 1) = 9/14`; neither renormalization reaches 1 exactly
at `p = 1` (they saturate at `p = 0.8` resp. `p = 0.9`). -/
theorem C3_morphT_renormalization_counterexample :
    morphT_UnifiedViz (13 / 20) = 7 / 10 ∧
    morphT_MorphTiming (13 / 20) = 9 / 14 ∧
    specMorphT (13 / 20) = 1 / 2 ∧
    morphT_UnifiedViz (13 / 20) ≠ specMorphT (13 / 20) ∧
    morphT_MorphTiming (13 / 20) ≠ specMorphT (13 / 20) := by
  refine ⟨?_, ?_, ?_, ?_, ?_⟩ <;>
    simp [morphT_UnifiedViz, morphT_MorphTiming, specMorphT,
      MORPH_TIMING_start, MORPH_TIMING_end, min_def] <;> norm_num

/-- C3 (amended): the Map branch is active iff `p < 0.3` and the full
scatter state holds iff `p ≥ 1`, as claimed; but the Morph sub-progress is
not `(p - 0.3)/0.7`.  UnifiedViz uses `morphT = min((p - 0.3)/0.5, 1)`,
which is 0 at `p = 0.3` and saturates at 1 from `p = 0.8` on; the
refactored renderer uses `morphT = min((p - 0.2)/0.7, 1)` via
`MORPH_TIMING`, which is 0 at `p = 0.2` and saturates at 1 from
`p = 0.9` on. -/
theorem C3_progress_regions (p : ℚ) :
    (mapBranchActive p = true ↔ p < 3 / 10) ∧
    (isAtFullScatter p = true ↔ 1 ≤ p) ∧
    morphT_UnifiedViz (3 / 10) = 0 ∧
    (8 / 10 ≤ p → morphT_UnifiedViz p = 1) ∧
    (3 / 10 ≤ p → p < 8 / 10 →
      morphT_UnifiedViz p = (p - 3 / 10) / (5 / 10) ∧ morphT_UnifiedViz p < 1) ∧
    morphT_MorphTiming (2 / 10) = 0 ∧
    (9 / 10 ≤ p → morphT_MorphTiming p = 1) ∧
    (2 / 10 ≤ p → p < 9 / 10 →
      morphT_MorphTiming p = (p - 2 / 10) / (7 / 10) ∧ morphT_MorphTiming p < 1) := by
  refine ⟨by simp [mapBranchActive], by simp [isAtFullScatter], by norm_num [morphT_UnifiedViz],
    ?_, ?_, by norm_num [morphT_MorphTiming, MORPH_TIMING_start, MORPH_TIMING_end], ?_, ?_⟩
  · intro h
    have h1 : (1 : ℚ) ≤ (p - 3 / 10) / (5 / 10) := by
      rw [le_div_iff₀ (by norm_num)]
      linarith
    simp only [morphT_UnifiedViz]
    exact min_eq_right h1
  · intro h1 h2
    have hlt : (p - 3 / 10) / (5 / 10) < 1 := by
      rw [div_lt_iff₀ (by norm_num)]
      linarith
    constructor
    · simp only [morphT_UnifiedViz]
      exact min_eq_left hlt.le
    · simp only [morphT_UnifiedViz]
      exact min_lt_iff.mpr (Or.inl hlt)
  · intro h
    have h1 : (1 : ℚ) ≤ (p - 2 / 10) / (9 / 10 - 2 / 10) := by
      rw [le_div_iff₀ (by norm_num)]
      linarith
    simp only [morphT_MorphTiming, MORPH_TIMING_start, MORPH_TIMING_end]
    exact min_eq_right h1
  · intro h1 h2
    have hlt : (p - 2 / 10) / (9 / 10 - 2 / 10) < 1 := by
      rw [div_lt_iff₀ (by norm_num)]
      linarith
    constructor
    · simp only [morphT_MorphTiming, MORPH_TIMING_start, MORPH_TIMING_end]
      rw [min_eq_left hlt.le]
      norm_num
    · simp only [morphT_MorphTiming, MORPH_TIMING_start, MORPH_TIMING_end]
      exact min_lt_iff.mpr (Or.inl hlt)

/-- C3 witness: the region characterizations and the saturation points
instantiated at `p = 1` and the open-morph case at `p = 1/2`. -/
theorem C3_progress_regions_witness :
    (isAtFullScatter 1 = true ↔ (1 : ℚ) ≤ 1) ∧
    ((8 : ℚ) / 10 ≤ 1 ∧ morphT_UnifiedViz 1 = 1) ∧
    ((9 : ℚ) / 10 ≤ 1 ∧ morphT_MorphTiming 1 = 1) ∧
    ((3 : ℚ) / 10 ≤ 1 / 2 ∧ (1 : ℚ) / 2 < 8 / 10 ∧
      morphT_UnifiedViz (1 / 2) = ((1 : ℚ) / 2 - 3 / 10) / (5 / 10)) :=
  ⟨(C3_progress_regions 1).2.1,
   ⟨by norm_num, (C3_progress_regions 1).2.2.2.1 (by norm_num)⟩,
   ⟨by norm_num, (C3_progress_regions 1).2.2.2.2.2.2.1 (by norm_num)⟩,
   ⟨by norm_num, by norm_num,
    ((C3_progress_regions (1 / 2)).2.2.2.2.1 (by norm_num) (by norm_num)).1⟩⟩

/-- C5: at full scatter (`t ≥ 1`), any outcome change or phase change with a
non-empty previously-rendered value makes `shouldPreserveElements` true, and
then every persistent element class (morph dots, the two fit lines, the
effect annotation line/rect/text, and the main group) is excluded from the
clear step instead of being removed. -/
theorem C5_preserve_on_outcome_or_phase_change (t : ℚ)
    (prevOutcome currentOutcome prevScatterPhase scatterPhase : String)
    (ht : 1 ≤ t)
    (hchange : (prevOutcome ≠ currentOutcome ∧ prevOutcome ≠ "") ∨
      (prevScatterPhase ≠ scatterPhase ∧ prevScatterPhase ≠ "")) :
    shouldPreserveElements t prevOutcome currentOutcome prevScatterPhase scatterPhase = true ∧
    ∀ cls ∈ persistentClasses,
      removedByClearStep
        (shouldPreserveElements t prevOutcome currentOutcome prevScatterPhase scatterPhase)
        (isAtFullScatter t) cls = false := by
  have hp : shouldPreserveElements t prevOutcome currentOutcome prevScatterPhase
      scatterPhase = true := by
    simp only [shouldPreserveElements, isOutcomeOnlyTransition, isPhaseTransition,
      Bool.or_eq_true, Bool.and_eq_true, decide_eq_true_eq, bne_iff_ne]
    rcases hchange with ⟨h1, h2⟩ | ⟨h1, h2⟩
    · exact Or.inl ⟨⟨ht, h1⟩, h2⟩
    · exact Or.inr ⟨⟨ht, h1⟩, h2⟩
  refine ⟨hp, ?_⟩
  intro cls hcls
  rw [hp]
  have hc : persistentClasses.contains cls = true := by
    fin_cases hcls <;> rfl
  simp only [removedByClearStep, Bool.true_or, if_true, hc, Bool.not_true]

/-- C5 witness: at `t = 1`, switching the outcome from `consumption` to
`stunting` with the phase held at `ols` preserves the `morph-dot` class. -/
theorem C5_preserve_on_outcome_or_phase_change_witness :
    (1 : ℚ) ≤ 1 ∧ ("consumption" ≠ "stunting" ∧ "consumption" ≠ "") ∧
    "morph-dot" ∈ persistentClasses ∧
    shouldPreserveElements 1 "consumption" "stunting" "ols" "ols" = true ∧
    removedByClearStep (shouldPreserveElements 1 "consumption" "stunting" "ols" "ols")
      (isAtFullScatter 1) "morph-dot" = false :=
  ⟨le_refl 1, ⟨by decide, by decide⟩, by decide,
   (C5_preserve_on_outcome_or_phase_change 1 "consumption" "stunting" "ols" "ols"
      (le_refl 1) (Or.inl ⟨by decide, by decide⟩)).1,
   (C5_preserve_on_outcome_or_phase_change 1 "consumption" "stunting" "ols" "ols"
      (le_refl 1) (Or.inl ⟨by decide, by decide⟩)).2 "morph-dot" (by decide)⟩

/-- The filter predicate of `filterScatterData`, characterised. -/
lemma includedInScatter_iff (d : MergedDistrictData) (oc : Outcome) :
    includedInScatter d oc = true ↔
      (∃ dv, d.distance = some dv) ∧ ∃ v, d.outcomeField oc = some v ∧ 0 < v := by
  cases hd : d.distance <;> cases ho : d.outcomeField oc <;>
    simp [includedInScatter, hd, ho]

/-- C7: a merged unit contributes a scatter point iff its distance is
present and the selected outcome value is present and strictly positive;
the point's `scatterX` is `|distance|` for inside units and `-|distance|`
otherwise (whatever the stored sign), and its `scatterY` is the outcome
value, rescaled to percent for the stunting outcome and unchanged for the
others. -/
theorem C7_filterScatterData_spec (mergedData : List MergedDistrictData)
    (currentOutcome : Outcome) :
    (∀ d ∈ mergedData, ∀ dv v, d.distance = some dv →
        d.outcomeField currentOutcome = some v → 0 < v →
        projectScatterPoint d currentOutcome ∈ filterScatterData mergedData currentOutcome) ∧
    (∀ p ∈ filterScatterData mergedData currentOutcome,
        ∃ d ∈ mergedData, (∃ dv, d.distance = some dv) ∧
          (∃ v, d.outcomeField currentOutcome = some v ∧ 0 < v) ∧
          p = projectScatterPoint d currentOutcome) ∧
    (∀ d : MergedDistrictData, ∀ dv v, d.distance = some dv →
        d.outcomeField currentOutcome = some v → 0 < v →
        (projectScatterPoint d currentOutcome).scatterX =
          (if d.isInside then |dv| else -|dv|) ∧
        (projectScatterPoint d currentOutcome).scatterY =
          (if currentOutcome = .stunting then v * 100 else v)) := by
  refine ⟨?_, ?_, ?_⟩
  · intro d hd dv v hdist hout hv
    exact List.mem_map_of_mem _
      (List.mem_filter.mpr ⟨hd, (includedInScatter_iff d currentOutcome).mpr
        ⟨⟨dv, hdist⟩, v, hout, hv⟩⟩)
  · intro p hp
    rcases List.mem_map.mp hp with ⟨d, hdf, rfl⟩
    rcases List.mem_filter.mp hdf with ⟨hd, hpred⟩
    rcases (includedInScatter_iff d currentOutcome).mp hpred with ⟨hdv, hv⟩
    exact ⟨d, hd, hdv, hv, rfl⟩
  · intro d dv v hdist hout hv
    constructor
    · simp [projectScatterPoint, flippedDistance, hdist]
    · simp [projectScatterPoint, hout]

/-- C7 witness: a concrete inside unit with stored distance `-10` and
consumption `5` is projected to `scatterX = 10`, `scatterY = 5` and is a
member of the projection of the singleton list. -/
theorem C7_filterScatterData_spec_witness :
    sampleDistrict.distance = some (-10) ∧
    sampleDistrict.outcomeField .consumption = some 5 ∧ (0 : ℚ) < 5 ∧
    projectScatterPoint sampleDistrict .consumption ∈
      filterScatterData [sampleDistrict] .consumption ∧
    (projectScatterPoint sampleDistrict .consumption).scatterX =
      (if sampleDistrict.isInside then |(-10 : ℚ)| else -|(-10 : ℚ)|) ∧
    (projectScatterPoint sampleDistrict .consumption).scatterY =
      (if Outcome.consumption = .stunting then (5 : ℚ) * 100 else 5) :=
  ⟨by decide, by decide, by norm_num,
   (C7_filterScatterData_spec [sampleDistrict] .consumption).1 sampleDistrict
     (by decide) (-10) 5 (by decide) (by decide) (by norm_num),
   ((C7_filterScatterData_spec [sampleDistrict] .consumption).2.2 sampleDistrict
     (-10) 5 (by decide) (by decide) (by norm_num)).1,
   ((C7_filterScatterData_spec [sampleDistrict] .consumption).2.2 sampleDistrict
     (-10) 5 (by decide) (by decide) (by norm_num)).2⟩

/-- C10: every point of the single-outcome projection also appears (same
unit identifier, same flipped-distance `scatterX`) in the all-outcomes
projection used for cross-outcome transitions. -/
theorem C10_filter_subset_of_all (mergedData : List MergedDistrictData)
    (currentOutcome : Outcome) :
    ∀ p ∈ filterScatterData mergedData currentOutcome,
      ∃ q ∈ getAllScatterData mergedData,
        q.ubigeo = p.ubigeo ∧ q.scatterX = p.scatterX := by
  intro p hp
  rcases List.mem_map.mp hp with ⟨d, hdf, rfl⟩
  rcases List.mem_filter.mp hdf with ⟨hd, hpred⟩
  rcases (includedInScatter_iff d currentOutcome).mp hpred with ⟨⟨dv, hdv⟩, v, hv, hvpos⟩
  refine ⟨projectAllPoint d, ?_, rfl, rfl⟩
  apply List.mem_map_of_mem
  apply List.mem_filter.mpr
  refine ⟨hd, ?_⟩
  have hpos : positiveOpt (d.outcomeField currentOutcome) = true := by
    rw [hv]
    simpa [positiveOpt] using hvpos
  cases currentOutcome <;>
    simp_all [includedInAll, MergedDistrictData.outcomeField, Option.isSome]

/-- C10 witness: the consumption-projection point of the concrete sample
unit appears in the all-outcomes projection with the same ubigeo and
scatterX. -/
theorem C10_filter_subset_of_all_witness :
    projectScatterPoint sampleDistrict .consumption ∈
      filterScatterData [sampleDistrict] .consumption ∧
    ∃ q ∈ getAllScatterData [sampleDistrict],
      q.ubigeo = (projectScatterPoint sampleDistrict .consumption).ubigeo ∧
      q.scatterX = (projectScatterPoint sampleDistrict .consumption).scatterX :=
  ⟨by decide,
   C10_filter_subset_of_all [sampleDistrict] .consumption
     (projectScatterPoint sampleDistrict .consumption) (by decide)⟩

/-- The driver invariant: at most one outstanding frame callback, which is
exactly the handle stored in `animationRef`; and the React state
`currentProgress` always equals the most recently reported frame value
(initially the prop value `p0`). -/
def DriverInv (p0 : ℚ) (s : DriverState) : Prop :=
  (s.pending = [] ∨ ∃ h, s.pending = [h] ∧ s.animationRef = some h) ∧
  s.currentProgress = s.reported.headD p0

lemma cancelled_pending_nil (s : DriverState)
    (hpend : s.pending = [] ∨ ∃ h, s.pending = [h] ∧ s.animationRef = some h) :
    (match s.animationRef with
      | some h => s.pending.erase h
      | none => s.pending) = [] := by
  rcases hpend with h0 | ⟨h, hp, ha⟩
  · rw [h0]; cases s.animationRef <;> simp
  · rw [ha, hp]; simp

lemma driverStep_inv (duration p0 : ℚ) (s : DriverState) (e : DriverEvent)
    (hs : DriverInv p0 s) : DriverInv p0 (driverStep duration s e) := by
  obtain ⟨hpend, hcur⟩ := hs
  cases e with
  | retarget target now =>
    refine ⟨Or.inr ⟨s.nextHandle, ?_, ?_⟩, ?_⟩ <;>
      simp [driverStep, cancelled_pending_nil s hpend, hcur]
  | frame h now =>
    by_cases hmem : h ∈ s.pending
    · rcases hpend with h0 | ⟨h', hp, ha⟩
      · rw [h0] at hmem
        simp at hmem
      · rw [hp] at hmem
        simp at hmem
        subst hmem
        by_cases ht : min ((now - s.startTime) / duration) 1 < 1
        · refine ⟨Or.inr ⟨s.nextHandle, ?_, ?_⟩, ?_⟩ <;>
            simp [driverStep, hp, ht, List.mem_singleton]
        · refine ⟨Or.inl ?_, ?_⟩ <;>
            simp [driverStep, hp, ht, List.mem_singleton]
    · refine ⟨?_, ?_⟩ <;> simp [driverStep, hmem, hpend, hcur]

lemma runDriver_inv (duration p0 : ℚ) (events : List DriverEvent) :
    DriverInv p0 (runDriver duration p0 events) := by
  suffices h : ∀ s, DriverInv p0 s → DriverInv p0 (events.foldl (driverStep duration) s) by
    exact h _ ⟨Or.inl rfl, rfl⟩
  induction events with
  | nil => exact fun s hs => hs
  | cons e es ih => exact fun s hs => ih _ (driverStep_inv duration p0 s e hs)

/-- C9: after any sequence of retarget and frame events, the driver has at
most one outstanding frame callback; a further retarget cancels the
outstanding callback before scheduling (still at most one), stores the
fresh handle, and starts the new interpolation from the value most
recently reported to the frame callback (the initial prop value if none
has been reported yet). -/
theorem C9_driver_restarts_from_last_reported (duration p0 target now : ℚ)
    (events : List DriverEvent) :
    (runDriver duration p0 events).pending.length ≤ 1 ∧
    (driverStep duration (runDriver duration p0 events)
        (.retarget target now)).pending.length ≤ 1 ∧
    (driverStep duration (runDriver duration p0 events)
        (.retarget target now)).startProgress =
      (runDriver duration p0 events).reported.headD p0 ∧
    (driverStep duration (runDriver duration p0 events)
        (.retarget target now)).animationRef =
      some (runDriver duration p0 events).nextHandle := by
  obtain ⟨hpend, hcur⟩ := runDriver_inv duration p0 events
  refine ⟨?_, ?_, ?_, ?_⟩
  · rcases hpend with h0 | ⟨h, hp, _⟩
    · simp [h0]
    · simp [hp]
  · simp [driverStep, cancelled_pending_nil _ hpend]
  · simp [driverStep, hcur]
  · simp [driverStep]

lemma head?_range_map {α : Type} (f : ℕ → α) (n : ℕ) :
    ((List.range (n + 1)).map f).head? = some (f 0) := by
  rw [List.range_succ_eq_map]
  simp

lemma getLast?_range_map {α : Type} (f : ℕ → α) (n : ℕ) :
    ((List.range (n + 1)).map f).getLast? = some (f n) := by
  rw [List.range_succ, List.map_append]
  simp

lemma foldr_min_zero_nonpos (l : List ℚ) : l.foldr min 0 ≤ 0 := by
  induction l with
  | nil => simp
  | cons x xs ih => exact le_trans (min_le_right _ _) ih

lemma minOutsideOf_nonpos (l : List ScatterDataPoint) : minOutsideOf l ≤ 0 :=
  foldr_min_zero_nonpos _

/-- C4: the displayed quadratic curves are anchored to the grand mean: the
outside poly curve's sample at `x = 0` (its last sample) has
`y = allMean`, the inside poly curve's sample at `x = 0` (its first
sample) has `y = allMean + paperDiscontinuity`, where the paper
discontinuity is the Dell (2010) coefficient, rescaled by 100 for the
stunting outcome — so the displayed jump at `x = 0` equals the externally
supplied paper effect, not the difference of fitted quadratic intercepts. -/
theorem C4_poly_curves_anchored (scatterData : List ScatterDataPoint)
    (currentOutcome : Outcome) (hne : scatterData ≠ []) :
    (calculateFittedLines scatterData currentOutcome).insideLinePoly.head? =
      some { x := 0, y := allMean scatterData + paperDiscontinuityOf currentOutcome } ∧
    (calculateFittedLines scatterData currentOutcome).outsideLinePoly.getLast? =
      some { x := 0, y := allMean scatterData } ∧
    (calculateFittedLines scatterData currentOutcome).paperDiscontinuity =
      (if currentOutcome = .stunting then PAPER_COEFFICIENTS currentOutcome * 100
        else PAPER_COEFFICIENTS currentOutcome) ∧
    (allMean scatterData + paperDiscontinuityOf currentOutcome) - allMean scatterData =
      (calculateFittedLines scatterData currentOutcome).paperDiscontinuity := by
  have hmin : minOutsideOf (scatterData.filter (fun d => !d.isInside)) ≤ 0 :=
    minOutsideOf_nonpos _
  have hfloor : ⌊minOutsideOf (scatterData.filter (fun d => !d.isInside))⌋ ≤ 0 := by
    have := Int.floor_le_floor hmin
    simpa using this
  refine ⟨?_, ?_, ?_, ?_⟩
  · simp only [calculateFittedLines]
    rw [head?_range_map]
    simp
  · simp only [calculateFittedLines]
    rw [getLast?_range_map]
    have hx : (⌊minOutsideOf (scatterData.filter (fun d => !d.isInside))⌋ +
        ((-⌊minOutsideOf (scatterData.filter (fun d => !d.isInside))⌋).toNat : ℤ) : ℤ) = 0 := by
      rw [Int.toNat_of_nonneg (by omega)]
      omega
    simp only [hx]
    norm_num
  · simp only [calculateFittedLines, paperDiscontinuityOf]
  · simp only [calculateFittedLines]
    ring

/-- C4 witness: on the singleton scatter list containing the sample
district's consumption point (`scatterY = 5`), the inside poly curve
starts at `(0, 5 - 1/4)` and the outside poly curve ends at `(0, 5)`. -/
theorem C4_poly_curves_anchored_witness :
    ([projectScatterPoint sampleDistrict .consumption] : List ScatterDataPoint) ≠ [] ∧
    (calculateFittedLines [projectScatterPoint sampleDistrict .consumption]
        .consumption).insideLinePoly.head? =
      some { x := 0,
             y := allMean [projectScatterPoint sampleDistrict .consumption]
               + paperDiscontinuityOf .consumption } ∧
    (calculateFittedLines [projectScatterPoint sampleDistrict .consumption]
        .consumption).outsideLinePoly.getLast? =
      some { x := 0, y := allMean [projectScatterPoint sampleDistrict .consumption] } :=
  ⟨by decide,
   (C4_poly_curves_anchored [projectScatterPoint sampleDistrict .consumption]
     .consumption (by decide)).1,
   (C4_poly_curves_anchored [projectScatterPoint sampleDistrict .consumption]
     .consumption (by decide)).2.1⟩

lemma interp_of_cleared (a b c d x y : ℚ) (hd : d ≠ 0)
    (h : a + b * x + c * x ^ 2 = y * d) :
    a / d + b / d * x + c / d * x ^ 2 = y := by
  field_simp
  linear_combination h

/-- C6 counterexample: the points `(0, 0), (1/1000, 0), (2/1000, 1)` have
pairwise-distinct x values, but their normal-equations determinant
(`4e-18`) falls below the `1e-10` guard, so `calcQuadraticOLS` falls back
to the linear fit and does not reproduce the points (the residual at the
first point is `-1/6`, not `0`). -/
theorem C6_epsilon_guard_counterexample :
    ((⟨0, 0⟩ : Point).scatterX ≠ (⟨1 / 1000, 0⟩ : Point).scatterX ∧
     (⟨0, 0⟩ : Point).scatterX ≠ (⟨2 / 1000, 1⟩ : Point).scatterX ∧
     (⟨1 / 1000, 0⟩ : Point).scatterX ≠ (⟨2 / 1000, 1⟩ : Point).scatterX) ∧
    ¬((calcQuadraticOLS [⟨0, 0⟩, ⟨1 / 1000, 0⟩, ⟨2 / 1000, 1⟩]).intercept
        + (calcQuadraticOLS [⟨0, 0⟩, ⟨1 / 1000, 0⟩, ⟨2 / 1000, 1⟩]).slope
          * (⟨0, 0⟩ : Point).scatterX
        + (calcQuadraticOLS [⟨0, 0⟩, ⟨1 / 1000, 0⟩, ⟨2 / 1000, 1⟩]).quadratic
          * (⟨0, 0⟩ : Point).scatterX ^ 2
      = (⟨0, 0⟩ : Point).scatterY) := by
  constructor
  · refine ⟨?_, ?_, ?_⟩ <;> norm_num
  · norm_num [calcQuadraticOLS, calcLinearOLS, quadDet, linDenom, fitEps,
      sumX, sumY, sumXY, sumX2, sumX3, sumX4, sumX2Y, List.foldl, abs_lt]

set_option maxHeartbeats 1000000 in
/-- C6 (amended): for every 3 points with pairwise-distinct x values whose
normal-equations determinant clears the `1e-10` guard, the closed-form
Cramer coefficients of `calcQuadraticOLS` reproduce all 3 input points
exactly (zero residual). -/
theorem C6_quadratic_interpolates_three_points (p1 p2 p3 : Point)
    (hx12 : p1.scatterX ≠ p2.scatterX) (hx13 : p1.scatterX ≠ p3.scatterX)
    (hx23 : p2.scatterX ≠ p3.scatterX)
    (hdet : fitEps ≤ |quadDet [p1, p2, p3]|) :
    ((calcQuadraticOLS [p1, p2, p3]).intercept
        + (calcQuadraticOLS [p1, p2, p3]).slope * p1.scatterX
        + (calcQuadraticOLS [p1, p2, p3]).quadratic * p1.scatterX ^ 2 = p1.scatterY) ∧
    ((calcQuadraticOLS [p1, p2, p3]).intercept
        + (calcQuadraticOLS [p1, p2, p3]).slope * p2.scatterX
        + (calcQuadraticOLS [p1, p2, p3]).quadratic * p2.scatterX ^ 2 = p2.scatterY) ∧
    ((calcQuadraticOLS [p1, p2, p3]).intercept
        + (calcQuadraticOLS [p1, p2, p3]).slope * p3.scatterX
        + (calcQuadraticOLS [p1, p2, p3]).quadratic * p3.scatterX ^ 2 = p3.scatterY) := by
  have hlen : ¬([p1, p2, p3].length < 3) := by simp
  have hd : ¬(|quadDet [p1, p2, p3]| < fitEps) := not_lt.mpr hdet
  have hdet0 : quadDet [p1, p2, p3] ≠ 0 := by
    intro h
    rw [h] at hdet
    norm_num [fitEps] at hdet
  refine ⟨?_, ?_, ?_⟩ <;>
    · simp only [calcQuadraticOLS, if_neg hlen, if_neg hd]
      apply interp_of_cleared _ _ _ _ _ _ hdet0
      simp only [quadDet, sumX, sumY, sumXY, sumX2, sumX3, sumX4, sumX2Y,
        List.foldl, List.length]
      push_cast
      ring

/-- C6 witness: the points `(0, 1), (1, 2), (2, 5)` (which lie on
`y = 1 + x²`, determinant 4) are interpolated exactly. -/
theorem C6_quadratic_interpolates_three_points_witness :
    ((⟨0, 1⟩ : Point).scatterX ≠ (⟨1, 2⟩ : Point).scatterX ∧
     (⟨0, 1⟩ : Point).scatterX ≠ (⟨2, 5⟩ : Point).scatterX ∧
     (⟨1, 2⟩ : Point).scatterX ≠ (⟨2, 5⟩ : Point).scatterX ∧
     fitEps ≤ |quadDet [⟨0, 1⟩, ⟨1, 2⟩, ⟨2, 5⟩]|) ∧
    ((calcQuadraticOLS [⟨0, 1⟩, ⟨1, 2⟩, ⟨2, 5⟩]).intercept
        + (calcQuadraticOLS [⟨0, 1⟩, ⟨1, 2⟩, ⟨2, 5⟩]).slope * (⟨0, 1⟩ : Point).scatterX
        + (calcQuadraticOLS [⟨0, 1⟩, ⟨1, 2⟩, ⟨2, 5⟩]).quadratic
          * (⟨0, 1⟩ : Point).scatterX ^ 2 = (⟨0, 1⟩ : Point).scatterY) ∧
    ((calcQuadraticOLS [⟨0, 1⟩, ⟨1, 2⟩, ⟨2, 5⟩]).intercept
        + (calcQuadraticOLS [⟨0, 1⟩, ⟨1, 2⟩, ⟨2, 5⟩]).slope * (⟨1, 2⟩ : Point).scatterX
        + (calcQuadraticOLS [⟨0, 1⟩, ⟨1, 2⟩, ⟨2, 5⟩]).quadratic
          * (⟨1, 2⟩ : Point).scatterX ^ 2 = (⟨1, 2⟩ : Point).scatterY) ∧
    ((calcQuadraticOLS [⟨0, 1⟩, ⟨1, 2⟩, ⟨2, 5⟩]).intercept
        + (calcQuadraticOLS [⟨0, 1⟩, ⟨1, 2⟩, ⟨2, 5⟩]).slope * (⟨2, 5⟩ : Point).scatterX
        + (calcQuadraticOLS [⟨0, 1⟩, ⟨1, 2⟩, ⟨2, 5⟩]).quadratic
          * (⟨2, 5⟩ : Point).scatterX ^ 2 = (⟨2, 5⟩ : Point).scatterY) :=
  ⟨⟨by norm_num, by norm_num, by norm_num,
    by norm_num [quadDet, sumX, sumY, sumXY, sumX2, sumX3, sumX4, sumX2Y,
      List.foldl, fitEps, abs_of_pos]⟩,
   C6_quadratic_interpolates_three_points ⟨0, 1⟩ ⟨1, 2⟩ ⟨2, 5⟩
     (by norm_num) (by norm_num) (by norm_num)
     (by norm_num [quadDet, sumX, sumY, sumXY, sumX2, sumX3, sumX4, sumX2Y,
        List.foldl, fitEps, abs_of_pos])⟩

lemma exp_neg_quarter_lb : ((31 : ℝ) / 32) ^ 8 ≤ Real.exp (-(1 / 4 : ℝ)) := by
  have h1 : (31 : ℝ) / 32 ≤ Real.exp (-(1 / 32 : ℝ)) := by
    have := Real.add_one_le_exp (-(1 / 32 : ℝ))
    linarith
  have h2 : Real.exp (-(1 / 4 : ℝ)) = Real.exp (-(1 / 32 : ℝ)) ^ 8 := by
    rw [← Real.exp_nat_mul]
    norm_num
  rw [h2]
  exact pow_le_pow_left₀ (by norm_num) h1 8

lemma exp_neg_quarter_ub : Real.exp (-(1 / 4 : ℝ)) ≤ ((32 : ℝ) / 33) ^ 8 := by
  have h1 : (33 : ℝ) / 32 ≤ Real.exp (1 / 32 : ℝ) := by
    have := Real.add_one_le_exp ((1 : ℝ) / 32)
    linarith
  have h2 : Real.exp (1 / 4 : ℝ) = Real.exp (1 / 32 : ℝ) ^ 8 := by
    rw [← Real.exp_nat_mul]
    norm_num
  have hpow : ((33 : ℝ) / 32) ^ 8 ≤ Real.exp (1 / 4 : ℝ) := by
    rw [h2]
    exact pow_le_pow_left₀ (by norm_num) h1 8
  have hpos : (0 : ℝ) < ((33 : ℝ) / 32) ^ 8 := by positivity
  rw [Real.exp_neg]
  calc (Real.exp (1 / 4 : ℝ))⁻¹ ≤ (((33 : ℝ) / 32) ^ 8)⁻¹ := inv_anti₀ hpos hpow
    _ = ((32 : ℝ) / 33) ^ 8 := by
        rw [← inv_pow]
        norm_num

/-- C8: the effect-label formatting.  For the stunting outcome the stored
coefficient `0.06` is rescaled to `6` and formatted (with an explicit `+`
for positive values, one decimal place) as `+6.0pp`; for the consumption
outcome with coefficient `−0.25` the label is `(e^{-0.25} − 1)·100`
rounded to 0 decimals, i.e. `-22%`; the roads outcome is a raw unit
difference with 0 decimals, `-36 m/km²`. -/
theorem C8_format_effect_labels :
    paperDiscontinuityOf .stunting = 6 ∧
    formatEffect ((paperDiscontinuityOf .stunting : ℚ) : ℝ) .stunting = "+6.0pp" ∧
    paperDiscontinuityOf .consumption = -(25 / 100) ∧
    formatEffect ((paperDiscontinuityOf .consumption : ℚ) : ℝ) .consumption = "-22%" ∧
    paperDiscontinuityOf .roads = -36 ∧
    formatEffect ((paperDiscontinuityOf .roads : ℚ) : ℝ) .roads = "-36 m/km²" := by
  have hstun : paperDiscontinuityOf .stunting = 6 := by
    norm_num [paperDiscontinuityOf, PAPER_COEFFICIENTS]
  have hcons : paperDiscontinuityOf .consumption = -(25 / 100) := by
    simp [paperDiscontinuityOf, PAPER_COEFFICIENTS]
  have hroads : paperDiscontinuityOf .roads = -36 := by
    simp [paperDiscontinuityOf, PAPER_COEFFICIENTS]
  refine ⟨hstun, ?_, hcons, ?_, hroads, ?_⟩
  · rw [hstun]
    have h60 : ⌊((6 : ℚ) : ℝ) * 10 ^ (1 : ℕ) + 1 / 2⌋ = (60 : ℤ) := by
      rw [Int.floor_eq_iff]
      constructor <;> push_cast <;> norm_num
    simp only [formatEffect, toFixed, h60]
    rw [if_pos (by norm_num : (0 : ℝ) < ((6 : ℚ) : ℝ))]
    decide
  · rw [hcons]
    have harg : ((-(25 / 100) : ℚ) : ℝ) = -(1 / 4 : ℝ) := by push_cast; norm_num
    rw [harg]
    have hlb : ((31 : ℝ) / 40) ≤ Real.exp (-(1 / 4 : ℝ)) :=
      le_trans (by norm_num) exp_neg_quarter_lb
    have hub : Real.exp (-(1 / 4 : ℝ)) ≤ (391 : ℝ) / 500 :=
      le_trans exp_neg_quarter_ub (by norm_num)
    have hneg : ¬ (0 : ℝ) < (Real.exp (-(1 / 4 : ℝ)) - 1) * 100 := by
      have : Real.exp (-(1 / 4 : ℝ)) < 1 := Real.exp_lt_one_iff.mpr (by norm_num)
      nlinarith
    have hfl : ⌊(Real.exp (-(1 / 4 : ℝ)) - 1) * 100 * 10 ^ (0 : ℕ) + 1 / 2⌋ = (-22 : ℤ) := by
      rw [Int.floor_eq_iff]
      constructor <;> push_cast <;> nlinarith
    simp only [formatEffect, toFixed, hfl, if_neg hneg]
    decide
  · rw [hroads]
    have harg : ((-36 : ℚ) : ℝ) = (-36 : ℝ) := by push_cast; ring
    rw [harg]
    have hneg : ¬ (0 : ℝ) < (-36 : ℝ) := by norm_num
    have hfl : ⌊(-36 : ℝ) * 10 ^ (0 : ℕ) + 1 / 2⌋ = (-36 : ℤ) := by
      rw [Int.floor_eq_iff]
      constructor <;> push_cast <;> norm_num
    simp only [formatEffect, toFixed, hfl, if_neg hneg]
    decide

end MitaViz
